import Mathlib

/-!
Shallow embedding of `publish.py`, the release build script: configuration
constants, the `run_pdflatex` helper and the `main` pipeline (output-directory
setup, content loading, per-item PDF/HTML production, index rendering, asset
copying).  File contents are irrelevant to the verified properties, so the
output directory is modelled as a duplicate-free list of file names; external
effects (the `latexmk` subprocess, YAML parsing, Jinja template rendering) are
supplied as oracles in the environment.
-/

/-- Python exceptions `publish.py` can raise (uncaught, they abort the run). -/
inductive PyError where
  | fileNotFound (path : String)
  | keyError (key : String)
  | calledProcessError
deriving DecidableEq, Repr

/-- The console lines `publish.py` prints, in order of appearance in the
source: the start banner (line 37), the loading banner (line 50), the
missing-files warning (line 59), the per-item loaded message (line 72), the
PDF-building banner (line 77), the per-item compiling message (line 79), the
compile-error diagnostics of `run_pdflatex` (lines 30-32), the metadata-page
banner (line 88), the master-volume banner (line 100), the website banner
(line 120), the website-success message (line 132) and the final banner
(line 134). -/
inductive LogLine where
  | startBanner
  | loadingBanner
  | warnMissing (itemId : String)
  | loaded (title : String)
  | pdfBanner
  | compiling (permalink : String)
  | errorCompiling (path : String)
  | stdoutLine (s : String)
  | stderrLine (s : String)
  | buildingMeta
  | masterBanner
  | websiteBanner
  | websiteOk
  | complete
deriving DecidableEq, Repr

/-- Outcome of one invocation of the external compiler subprocess:
exit status zero, or a nonzero exit with captured output streams. -/
inductive CompileResult where
  | success
  | failure (capturedOut capturedErr : String)
deriving DecidableEq, Repr

/-- A parsed YAML metadata mapping, as a Python `dict`: an association list
where the most recent assignment to a key shadows earlier ones under
`List.lookup`. -/
abbrev Metadata := List (String × String)

/-- Python `metadata[key] = value`: the new binding shadows any earlier one. -/
def dictInsert (m : Metadata) (k v : String) : Metadata := (k, v) :: m

/-- `CONFIG_FILE` (publish.py line 8). -/
def CONFIG_FILE : String := "release-config.yml"

/-- `SUBMISSIONS_DIR` (publish.py line 9). -/
def SUBMISSIONS_DIR : String := "submissions"

/-- `OUTPUT_DIR` (publish.py line 11). -/
def OUTPUT_DIR : String := "output"

/-- `ASSETS_DIR` (publish.py line 12). -/
def ASSETS_DIR : String := "assets"

/-- `os.path.join` for the relative paths the script builds. -/
def pathJoin (a b : String) : String := a ++ "/" ++ b

/-- Python `str.endswith`, at the character-list level. -/
def strEndsWith (s suffix : String) : Bool := suffix.data.isSuffixOf s.data

/-- `os.path.basename`: the part of the path after the last slash. -/
def basename (p : String) : String :=
  String.mk ((p.data.reverse.takeWhile (fun c => c ≠ '/')).reverse)

/-- Index of the last dot of the character list, if any. -/
def lastDotIdx (cs : List Char) : Option Nat :=
  match cs.reverse.findIdx? (fun c => c = '.') with
  | none => none
  | some k => some (cs.length - 1 - k)

/-- The base part of `os.path.splitext`: everything before the final dot,
except that a dot preceded only by dots does not start an extension
(so a hidden file like ".tex" keeps its full name). -/
def splitextBase (f : String) : String :=
  let cs := f.toList
  match lastDotIdx cs with
  | none => f
  | some i => if (cs.take i).any (fun c => c ≠ '.') then String.mk (cs.take i) else f

/-- Result of one call to `run_pdflatex`: the subprocess invocations it made
(the tex paths passed to `latexmk`), the files the external tool left in the
output directory, the console lines printed, and the exception re-raised, if
any. -/
structure PdfLatexResult where
  invocations : List String
  produced : List String
  log : List LogLine
  err : Option PyError
deriving DecidableEq, Repr

/-- `run_pdflatex` (publish.py lines 14-33): one `subprocess.run` call of
`latexmk -pdf -output-directory=<output_dir> <tex_file_path>` with
`check=True`; on `CalledProcessError` it prints an error line and the
captured stdout/stderr and re-raises.  On exit status zero the external tool
leaves `<base>.pdf` (named after the tex file's base name) in the output
directory, which is what the rename at lines 83-87 relies on; on failure the
model records no produced file. -/
def run_pdflatex (compiler : String → CompileResult) (tex_file_path output_dir : String) : PdfLatexResult :=
  match compiler tex_file_path with
  | .success =>
    { invocations := [tex_file_path]
      produced := [splitextBase (basename tex_file_path) ++ ".pdf"]
      log := []
      err := none }
  | .failure so se =>
    { invocations := [tex_file_path]
      produced := []
      log := [.errorCompiling tex_file_path, .stdoutLine so, .stderrLine se]
      err := some .calledProcessError }

/-- One entry of `release_content` (publish.py lines 67-70): the enriched
metadata dict and the path of the tex source. -/
structure Item where
  metadata : Metadata
  tex_path : String
deriving DecidableEq, Repr

/-- One iteration of the content-loading loop (publish.py lines 51-72) for a
single manifest identifier: `os.listdir` on the submission directory (raising
`FileNotFoundError` if it does not exist), first `.yml` and first `.tex`
entry, warn-and-skip when either is missing, otherwise parse the metadata,
set `id` and `pdf_link` (raising `KeyError` when `permalink` is absent), and
print the loaded title (raising `KeyError` when `title` is absent; the raise
happens after the append at line 71, but the aborted run never observes the
partial list, so the error result carries no item). -/
def loadItem (subdirs : String → Option (List String)) (yamlOf : String → Metadata) (item_id : String) : List LogLine × Except PyError (Option Item) :=
  let item_dir := pathJoin SUBMISSIONS_DIR item_id
  match subdirs item_dir with
  | none => ([], .error (.fileNotFound item_dir))
  | some files =>
    match files.find? (fun f => strEndsWith f ".yml"), files.find? (fun f => strEndsWith f ".tex") with
    | some metadata_file, some tex_file =>
      let m1 := dictInsert (yamlOf (pathJoin item_dir metadata_file)) "id" item_id
      match m1.lookup "permalink" with
      | none => ([], .error (.keyError "permalink"))
      | some pl =>
        let m2 := dictInsert m1 "pdf_link" (pl ++ ".pdf")
        match m2.lookup "title" with
        | none => ([], .error (.keyError "title"))
        | some t => ([.loaded t], .ok (some { metadata := m2, tex_path := pathJoin item_dir tex_file }))
    | _, _ => ([.warnMissing item_id], .ok none)

/-- The content-loading loop (publish.py lines 49-72): `loadItem` over the
manifest identifiers in order, collecting loaded items, continuing past
warned skips and aborting on the first raised error. -/
def loadContent (subdirs : String → Option (List String)) (yamlOf : String → Metadata) : List String → List LogLine × Except PyError (List Item)
  | [] => ([], .ok [])
  | item_id :: rest =>
    match loadItem subdirs yamlOf item_id with
    | (lg, .error e) => (lg, .error e)
    | (lg, .ok none) =>
      let r := loadContent subdirs yamlOf rest
      (lg ++ r.1, r.2)
    | (lg, .ok (some it)) =>
      match loadContent subdirs yamlOf rest with
      | (lg2, .error e) => (lg ++ lg2, .error e)
      | (lg2, .ok items) => (lg ++ lg2, .ok (it :: items))

/-- Writing a file into the output directory: overwrites any existing entry
of that name (keeps the listing duplicate-free). -/
def writeFile (n : String) (out : List String) : List String :=
  out.filter (fun m => m ≠ n) ++ [n]

/-- `shutil.move src dst` inside the output directory: the source name
disappears, the destination name is (over)written. -/
def moveFile (src dst : String) (out : List String) : List String :=
  writeFile dst (out.filter (fun m => m ≠ src))

/-- State threaded through the PDF-building loop: the output-directory
listing, the console log, and every subprocess invocation made so far. -/
structure BuildState where
  out : List String
  log : List LogLine
  invocations : List String
deriving DecidableEq, Repr

/-- One iteration of the PDF-building loop (publish.py lines 78-96): print
the compiling message (a `KeyError` here is impossible for loader-produced
items but modelled faithfully), call `run_pdflatex`, on failure propagate the
exception, on success move `<base>.pdf` to `<permalink>.pdf`, print the
metadata-page banner, render the item template (pure) and write
`<permalink>.html`. -/
def buildItem (compiler : String → CompileResult) (st : BuildState) (item : Item) : BuildState × Option PyError :=
  match item.metadata.lookup "permalink" with
  | none => (st, some (.keyError "permalink"))
  | some pl =>
    let r := run_pdflatex compiler item.tex_path OUTPUT_DIR
    let st1 : BuildState :=
      { out := r.produced.foldl (fun o n => writeFile n o) st.out
        log := st.log ++ [.compiling pl] ++ r.log
        invocations := st.invocations ++ r.invocations }
    match r.err with
    | some e => (st1, some e)
    | none =>
      let base := splitextBase (basename item.tex_path)
      let out2 := moveFile (base ++ ".pdf") (pl ++ ".pdf") st1.out
      ({ out := writeFile (pl ++ ".html") out2
         log := st1.log ++ [.buildingMeta]
         invocations := st1.invocations }, none)

/-- The PDF-building loop (publish.py lines 78-96) over the whole content
list: stops at the first propagated exception. -/
def buildLoop (compiler : String → CompileResult) (st : BuildState) : List Item → BuildState × Option PyError
  | [] => (st, none)
  | item :: rest =>
    match buildItem compiler st item with
    | (st1, none) => buildLoop compiler st1 rest
    | (st1, some e) => (st1, some e)

/-- The inputs of one run: the manifest's `content_ids` (already strings, as
after `str(item_id)`), the submission-directory listings (`none` when the
directory does not exist), the parse result of each YAML file, the external
compiler's behavior per tex path, whether the assets directory exists, and
the state of the output directory before the run. -/
structure Env where
  configIds : List String
  subdirs : String → Option (List String)
  yamlOf : String → Metadata
  compiler : String → CompileResult
  assetsExists : Bool
  outputExists : Bool
  initialOutput : List String

/-- Output-directory setup (publish.py lines 44-46): if the directory exists,
`shutil.rmtree` discards every entry, then `os.makedirs` recreates it;
either way the directory is empty afterwards. -/
def setupOutput (outputExists : Bool) (initialOutput : List String) : List String :=
  if outputExists then [] else []

/-- The state of the PDF-building loop as it starts (publish.py line 78):
freshly recreated output directory, the banners and loader messages printed
so far, and no compiler invocation yet. -/
def initialBuildState (env : Env) (lg : List LogLine) : BuildState :=
  { out := setupOutput env.outputExists env.initialOutput
    log := [.startBanner, .loadingBanner] ++ lg ++ [.pdfBanner]
    invocations := [] }

/-- Everything observable about one run of `main`: the console log, the final
output-directory listing, the content list (empty when the loader aborted),
every compiler invocation, and the uncaught exception, if any. -/
structure RunResult where
  log : List LogLine
  output : List String
  content : List Item
  invocations : List String
  err : Option PyError
deriving Repr

/-- `main` (publish.py lines 35-134; named `mainRun` here since a bare `main` is reserved): load the config (its `content_ids` are
`env.configIds`), recreate the output directory, load the content, build the
per-item PDFs and HTML pages, print the (dead) master-volume banner, render
and write `index.html`, and copy the assets directory into the output tree
when it exists.  An uncaught exception stops the pipeline at that point. -/
def mainRun (env : Env) : RunResult :=
  let out0 := setupOutput env.outputExists env.initialOutput
  match loadContent env.subdirs env.yamlOf env.configIds with
  | (lg, .error e) =>
    { log := [.startBanner, .loadingBanner] ++ lg
      output := out0
      content := []
      invocations := []
      err := some e }
  | (lg, .ok items) =>
    match buildLoop env.compiler (initialBuildState env lg) items with
    | (st, some e) =>
      { log := st.log, output := st.out, content := items, invocations := st.invocations, err := some e }
    | (st, none) =>
      let out1 := writeFile "index.html" st.out
      let out2 := if env.assetsExists then writeFile (pathJoin OUTPUT_DIR ASSETS_DIR) out1 else out1
      { log := st.log ++ [.masterBanner, .websiteBanner, .websiteOk, .complete]
        output := out2
        content := items
        invocations := st.invocations
        err := none }


/-- Whether a manifest identifier survives the loader's completeness check:
its directory listing exists and contains a ".yml" and a ".tex" entry. -/
def notSkipped (subdirs : String → Option (List String)) (item_id : String) : Bool :=
  match subdirs (pathJoin SUBMISSIONS_DIR item_id) with
  | none => false
  | some files =>
    (files.find? (fun f => strEndsWith f ".yml")).isSome &&
    (files.find? (fun f => strEndsWith f ".tex")).isSome

/-- The per-item artifact names a clean build loop leaves behind, for a list
of (source base name, permalink) pairs, in production order. -/
def pairNames : List (String × String) → List String
  | [] => []
  | bp :: rest => (bp.2 ++ ".pdf") :: (bp.2 ++ ".html") :: pairNames rest

/-- Whether a file name is overwritten or renamed away at some point while
the build loop processes the given (base, permalink) pairs. -/
def clobbers (ps : List (String × String)) (n : String) : Bool :=
  ps.any (fun bp =>
    decide (n = bp.1 ++ ".pdf") || decide (n = bp.2 ++ ".pdf") || decide (n = bp.2 ++ ".html"))

/-- An environment with two complete submissions whose metadata share one
permalink slug, so both artifact pairs collide on the same output names. -/
def duplicatePermalinkEnv : Env :=
  { configIds := ["1", "2"]
    subdirs := fun d => if d = "submissions/1" then some ["a.yml", "a.tex"]
      else if d = "submissions/2" then some ["b.yml", "b.tex"] else none
    yamlOf := fun p => if p = "submissions/1/a.yml" then [("title", "T1"), ("permalink", "p")]
      else [("title", "T2"), ("permalink", "p")]
    compiler := fun _ => .success
    assetsExists := false
    outputExists := false
    initialOutput := [] }

/-! ## Helper lemmas on derived file names -/

/-- A name ending in ".pdf" never coincides with a name ending in ".html". -/
lemma pdf_ne_html (s t : String) : s ++ ".pdf" ≠ t ++ ".html" := by
  intro h
  have hd := congrArg String.data h
  rw [String.data_append, String.data_append] at hd
  have e1 : (".pdf" : String).data ≠ [] := by decide
  have e2 : (".html" : String).data ≠ [] := by decide
  have h1 : (s.data ++ ".pdf".data).getLast? = some 'f' := by
    rw [List.getLast?_append_of_ne_nil s.data e1]; decide
  have h2 : (t.data ++ ".html".data).getLast? = some 'l' := by
    rw [List.getLast?_append_of_ne_nil t.data e2]; decide
  rw [hd, h2] at h1
  exact absurd h1 (by decide)

/-- Appending a fixed suffix to a string is injective. -/
lemma append_right_inj (s t u : String) (h : s ++ u = t ++ u) : s = t := by
  apply String.ext
  have hd := congrArg String.data h
  rw [String.data_append, String.data_append] at hd
  exact List.append_cancel_right hd

/-- A freshly written name is in the listing. -/
lemma mem_writeFile_self (n : String) (out : List String) : n ∈ writeFile n out := by
  simp [writeFile]

/-- Writing one name preserves membership of any other name. -/
lemma mem_writeFile_of_ne (m n : String) (out : List String) (h : m ≠ n) :
    m ∈ writeFile n out ↔ m ∈ out := by
  simp [writeFile, h]

/-! ## Compiler invoker (claim on invocation count) -/

/-- Claim C1 (counterexample): the compiler-invoker runs the external
compiler once per submission, not twice.  On the concrete source path
"submissions/1/a.tex" with a succeeding compiler, `run_pdflatex` makes
exactly one subprocess invocation, and a whole run over that single valid
submission invokes the compiler on its source file once, not twice. -/
theorem run_pdflatex_not_twice :
    (run_pdflatex (fun _ => .success) "submissions/1/a.tex" OUTPUT_DIR).invocations.length = 1 ∧
    ¬ (run_pdflatex (fun _ => .success) "submissions/1/a.tex" OUTPUT_DIR).invocations.length = 2 ∧
    (mainRun
      { configIds := ["1"],
        subdirs := fun d => if d = "submissions/1" then some ["a.yml", "a.tex"] else none,
        yamlOf := fun _ => [("title", "T1"), ("permalink", "p1")],
        compiler := fun _ => .success,
        assetsExists := false, outputExists := false, initialOutput := [] }).err = none ∧
    (mainRun
      { configIds := ["1"],
        subdirs := fun d => if d = "submissions/1" then some ["a.yml", "a.tex"] else none,
        yamlOf := fun _ => [("title", "T1"), ("permalink", "p1")],
        compiler := fun _ => .success,
        assetsExists := false, outputExists := false, initialOutput := [] }).invocations.count "submissions/1/a.tex" = 1 ∧
    ¬ (mainRun
      { configIds := ["1"],
        subdirs := fun d => if d = "submissions/1" then some ["a.yml", "a.tex"] else none,
        yamlOf := fun _ => [("title", "T1"), ("permalink", "p1")],
        compiler := fun _ => .success,
        assetsExists := false, outputExists := false, initialOutput := [] }).invocations.count "submissions/1/a.tex" = 2 := by
  refine ⟨rfl, by decide, rfl, rfl, by decide⟩

/-- Claim C1 (amended): for every submission that is compiled, the
compiler-invoker invokes the external compiler exactly once on the submission's source file (latexmk
performs any re-runs internally), the invocation succeeds without a raised
error, and afterwards the produced PDF has been renamed to the permalink
name, which is present in the output directory alongside the item's HTML
page. -/
theorem compiler_invoked_once_then_renamed
    (c : String → CompileResult) (st : BuildState) (item : Item) (pl : String)
    (hpl : item.metadata.lookup "permalink" = some pl)
    (hc : c item.tex_path = .success) :
    (run_pdflatex c item.tex_path OUTPUT_DIR).invocations = [item.tex_path] ∧
    (buildItem c st item).1.invocations = st.invocations ++ [item.tex_path] ∧
    (buildItem c st item).2 = none ∧
    (pl ++ ".pdf") ∈ (buildItem c st item).1.out ∧
    (pl ++ ".html") ∈ (buildItem c st item).1.out := by
  refine ⟨by simp [run_pdflatex, hc], ?_, ?_, ?_, ?_⟩
  · simp [buildItem, hpl, run_pdflatex, hc]
  · simp [buildItem, hpl, run_pdflatex, hc]
  · simp only [buildItem, hpl, run_pdflatex, hc, moveFile, List.foldl]
    rw [mem_writeFile_of_ne _ _ _ (pdf_ne_html pl pl)]
    exact mem_writeFile_self _ _
  · simp only [buildItem, hpl, run_pdflatex, hc, moveFile, List.foldl]
    exact mem_writeFile_self _ _

/-- Witness for claim C1: the single-invocation-then-rename theorem at a
concrete submission with permalink "p" and source "submissions/1/a.tex". -/
theorem compiler_invoked_once_then_renamed_witness :
    (run_pdflatex (fun _ => .success) "submissions/1/a.tex" OUTPUT_DIR).invocations = ["submissions/1/a.tex"] ∧
    (buildItem (fun _ => .success) ⟨[], [], []⟩ ⟨[("permalink", "p")], "submissions/1/a.tex"⟩).1.invocations = [] ++ ["submissions/1/a.tex"] ∧
    (buildItem (fun _ => .success) ⟨[], [], []⟩ ⟨[("permalink", "p")], "submissions/1/a.tex"⟩).2 = none ∧
    ("p" ++ ".pdf") ∈ (buildItem (fun _ => .success) ⟨[], [], []⟩ ⟨[("permalink", "p")], "submissions/1/a.tex"⟩).1.out ∧
    ("p" ++ ".html") ∈ (buildItem (fun _ => .success) ⟨[], [], []⟩ ⟨[("permalink", "p")], "submissions/1/a.tex"⟩).1.out :=
  compiler_invoked_once_then_renamed (fun _ => .success) ⟨[], [], []⟩
    ⟨[("permalink", "p")], "submissions/1/a.tex"⟩ "p" rfl rfl

/-! ## Content loader: warn-and-skip on missing files -/

/-- Claim C3: a manifest identifier whose directory exists but lacks a
metadata file or a tex source file makes the loader print a warning, contribute no item, and
continue with the remaining identifiers: the result on the remaining
identifiers (error or success alike) is unchanged apart from the prepended
warning line, so this condition never aborts the run. -/
theorem missing_files_warn_and_skip
    (s : String → Option (List String)) (y : String → Metadata)
    (item_id : String) (files : List String)
    (hdir : s (pathJoin SUBMISSIONS_DIR item_id) = some files)
    (hmiss : files.find? (fun f => strEndsWith f ".yml") = none ∨
             files.find? (fun f => strEndsWith f ".tex") = none) :
    loadItem s y item_id = ([.warnMissing item_id], .ok none) ∧
    ∀ rest, loadContent s y (item_id :: rest) =
      (.warnMissing item_id :: (loadContent s y rest).1, (loadContent s y rest).2) := by
  have h1 : loadItem s y item_id = ([.warnMissing item_id], .ok none) := by
    rcases hmiss with h | h <;> simp [loadItem, hdir, h]
  refine ⟨h1, fun rest => ?_⟩
  simp [loadContent, h1]

/-- Witness for claim C3: identifier "2" with an empty directory is warned
and skipped, and loading continues with the remaining identifier list
["9"]. -/
theorem missing_files_warn_and_skip_witness :
    loadItem (fun d => if d = "submissions/2" then some [] else none) (fun _ => []) "2" =
      ([.warnMissing "2"], .ok none) ∧
    loadContent (fun d => if d = "submissions/2" then some [] else none) (fun _ => []) ("2" :: ["9"]) =
      (.warnMissing "2" :: (loadContent (fun d => if d = "submissions/2" then some [] else none) (fun _ => []) ["9"]).1,
       (loadContent (fun d => if d = "submissions/2" then some [] else none) (fun _ => []) ["9"]).2) :=
  ⟨(missing_files_warn_and_skip _ _ "2" [] rfl (Or.inl rfl)).1,
   (missing_files_warn_and_skip _ _ "2" [] rfl (Or.inl rfl)).2 ["9"]⟩

/-! ## Output directory reset -/

/-- Claim C7: the output-directory setup leaves an empty directory regardless of what a
prior run left behind, and the whole run's result is independent of the
output directory's prior existence and contents. -/
theorem output_dir_recreated_empty (b : Bool) (init : List String) (env : Env) :
    setupOutput b init = [] ∧
    mainRun { env with outputExists := b, initialOutput := init } = mainRun env := by
  have hs : ∀ b2 init2, setupOutput b2 init2 = [] := fun b2 init2 => by simp [setupOutput]
  exact ⟨hs b init, by simp [mainRun, initialBuildState, hs]⟩

/-! ## Helper lemmas on the metadata dict and the loader -/

/-- Looking up the key just assigned. -/
lemma lookup_dictInsert_self (m : Metadata) (k v : String) :
    (dictInsert m k v).lookup k = some v := by
  simp [dictInsert]

/-- Assigning one key leaves every other key's lookup unchanged. -/
lemma lookup_dictInsert_ne (m : Metadata) (k kk v : String) (h : k ≠ kk) :
    (dictInsert m kk v).lookup k = m.lookup k := by
  have hb : (k == kk) = false := beq_eq_false_iff_ne.mpr h
  simp [dictInsert, List.lookup, hb]

/-- A loader skip happens exactly in the incomplete-directory branch, with the
warning as its only console line. -/
lemma loadItem_ok_none_inv (s : String → Option (List String)) (y : String → Metadata)
    (item_id : String) (lg : List LogLine)
    (h : loadItem s y item_id = (lg, .ok none)) :
    notSkipped s item_id = false ∧ lg = [.warnMissing item_id] := by
  cases hd : s (pathJoin SUBMISSIONS_DIR item_id) with
  | none => simp [loadItem, hd] at h
  | some files =>
    cases hy : files.find? (fun f => strEndsWith f ".yml") with
    | none =>
      simp [loadItem, hd, hy] at h
      simp [notSkipped, hd, hy, h.symm]
    | some mf =>
      cases htx : files.find? (fun f => strEndsWith f ".tex") with
      | none =>
        simp [loadItem, hd, hy, htx] at h
        simp [notSkipped, hd, hy, htx, h.symm]
      | some tf =>
        cases hp : (dictInsert (y (pathJoin (pathJoin SUBMISSIONS_DIR item_id) mf)) "id" item_id).lookup "permalink" with
        | none => simp [loadItem, hd, hy, htx, hp] at h
        | some pl =>
          cases ht2 : (dictInsert (dictInsert (y (pathJoin (pathJoin SUBMISSIONS_DIR item_id) mf)) "id" item_id) "pdf_link" (pl ++ ".pdf")).lookup "title" with
          | none => simp [loadItem, hd, hy, htx, hp, ht2] at h
          | some t => simp [loadItem, hd, hy, htx, hp, ht2] at h

/-- A loaded item comes from the complete-directory branch: the identifier is
not skipped, the `id` field of its metadata is the manifest identifier, and
the only console line is the loaded-title message. -/
lemma loadItem_ok_some_inv (s : String → Option (List String)) (y : String → Metadata)
    (item_id : String) (lg : List LogLine) (it : Item)
    (h : loadItem s y item_id = (lg, .ok (some it))) :
    notSkipped s item_id = true ∧ it.metadata.lookup "id" = some item_id ∧
    ∃ t, lg = [.loaded t] := by
  cases hd : s (pathJoin SUBMISSIONS_DIR item_id) with
  | none => simp [loadItem, hd] at h
  | some files =>
    cases hy : files.find? (fun f => strEndsWith f ".yml") with
    | none => simp [loadItem, hd, hy] at h
    | some mf =>
      cases htx : files.find? (fun f => strEndsWith f ".tex") with
      | none => simp [loadItem, hd, hy, htx] at h
      | some tf =>
        cases hp : (dictInsert (y (pathJoin (pathJoin SUBMISSIONS_DIR item_id) mf)) "id" item_id).lookup "permalink" with
        | none => simp [loadItem, hd, hy, htx, hp] at h
        | some pl =>
          cases ht2 : (dictInsert (dictInsert (y (pathJoin (pathJoin SUBMISSIONS_DIR item_id) mf)) "id" item_id) "pdf_link" (pl ++ ".pdf")).lookup "title" with
          | none => simp [loadItem, hd, hy, htx, hp, ht2] at h
          | some t =>
            simp only [loadItem, hd, hy, htx, hp, ht2, Prod.mk.injEq, Except.ok.injEq,
              Option.some.injEq] at h
            obtain ⟨hlg, hit⟩ := h
            refine ⟨by simp [notSkipped, hd, hy, htx], ?_, ⟨t, hlg.symm⟩⟩
            rw [← hit]
            rw [lookup_dictInsert_ne _ _ _ _ (by decide)]
            exact lookup_dictInsert_self _ _ _

/-- Loading a list whose prefix loads cleanly and whose continuation raises:
the raise propagates, after the prefix's log. -/
lemma loadContent_append_error (s : String → Option (List String)) (y : String → Metadata)
    (ids1 : List String) :
    ∀ lg1 items1 ids2 lg2 e,
      loadContent s y ids1 = (lg1, .ok items1) →
      loadContent s y ids2 = (lg2, .error e) →
      loadContent s y (ids1 ++ ids2) = (lg1 ++ lg2, .error e) := by
  induction ids1 with
  | nil =>
    intro lg1 items1 ids2 lg2 e h1 h2
    simp [loadContent] at h1
    simp [h1.1.symm, h2]
  | cons a t ih =>
    intro lg1 items1 ids2 lg2 e h1 h2
    cases hli : loadItem s y a with
    | mk lga r =>
      cases r with
      | error e2 => simp [loadContent, hli] at h1
      | ok o =>
        cases o with
        | none =>
          cases ht : loadContent s y t with
          | mk lt rt =>
            simp only [loadContent, hli, ht] at h1
            cases rt with
            | error e2 => simp at h1
            | ok its =>
              simp only [Prod.mk.injEq] at h1
              have hrec := ih lt its ids2 lg2 e (by rw [ht]) h2
              simp only [List.cons_append, loadContent, hli, List.append_eq]
              simp [hrec, h1.1.symm, List.append_assoc]
        | some it =>
          cases ht : loadContent s y t with
          | mk lt rt =>
            cases rt with
            | error e2 => simp [loadContent, hli, ht] at h1
            | ok its =>
              simp only [loadContent, hli, ht, Prod.mk.injEq] at h1
              have hrec := ih lt its ids2 lg2 e (by rw [ht]) h2
              simp only [List.cons_append, loadContent, hli, List.append_eq]
              rw [hrec]
              simp [h1.1.symm, List.append_assoc]

/-- A loader exception at one identifier (after a cleanly loaded prefix of
the manifest) propagates out of the loader and aborts the run before any
artifact is produced. -/
lemma loader_error_aborts (env : Env) (pre post : List String) (item_id : String)
    (lgPre : List LogLine) (itemsPre : List Item) (e : PyError)
    (hids : env.configIds = pre ++ item_id :: post)
    (hpre : loadContent env.subdirs env.yamlOf pre = (lgPre, .ok itemsPre))
    (hitem : loadItem env.subdirs env.yamlOf item_id = ([], .error e)) :
    loadContent env.subdirs env.yamlOf env.configIds = (lgPre, .error e) ∧
    (mainRun env).err = some e ∧
    (mainRun env).output = [] ∧
    (mainRun env).content = [] := by
  have h2 : loadContent env.subdirs env.yamlOf (item_id :: post) = ([], .error e) := by
    simp [loadContent, hitem]
  have h3 := loadContent_append_error env.subdirs env.yamlOf pre lgPre itemsPre
      (item_id :: post) [] e hpre h2
  rw [List.append_nil] at h3
  refine ⟨by rw [hids]; exact h3, ?_, ?_, ?_⟩ <;> simp [mainRun, hids, h3, setupOutput]

/-- The content list delivered to the rest of the pipeline is exactly the
loader's output. -/
lemma mainRun_content (env : Env) (lg : List LogLine) (items : List Item)
    (hl : loadContent env.subdirs env.yamlOf env.configIds = (lg, .ok items)) :
    (mainRun env).content = items := by
  simp only [mainRun, hl]
  split
  · simp
  · simp

/-! ## Loader abort conditions (missing directory, missing keys) -/

/-- Claim C9: a manifest identifier whose submission directory does not exist
makes the loader raise `FileNotFoundError` while scanning the directory, and the whole
run aborts: the loader's result is that error, `main` propagates it, and no
artifact is in the output directory (contrast with the warn-and-skip, which
only applies when the directory exists but lacks a file). -/
theorem missing_submission_dir_aborts
    (env : Env) (pre post : List String) (item_id : String)
    (lgPre : List LogLine) (itemsPre : List Item)
    (hids : env.configIds = pre ++ item_id :: post)
    (hpre : loadContent env.subdirs env.yamlOf pre = (lgPre, .ok itemsPre))
    (hdir : env.subdirs (pathJoin SUBMISSIONS_DIR item_id) = none) :
    loadContent env.subdirs env.yamlOf env.configIds =
      (lgPre, .error (.fileNotFound (pathJoin SUBMISSIONS_DIR item_id))) ∧
    (mainRun env).err = some (.fileNotFound (pathJoin SUBMISSIONS_DIR item_id)) ∧
    (mainRun env).output = [] ∧
    (mainRun env).content = [] := by
  have hitem : loadItem env.subdirs env.yamlOf item_id =
      ([], .error (.fileNotFound (pathJoin SUBMISSIONS_DIR item_id))) := by
    simp [loadItem, hdir]
  exact loader_error_aborts env pre post item_id lgPre itemsPre _ hids hpre hitem

/-- Witness for claim C9: a run whose manifest is ["1", "2", "3"] where directory
"submissions/2" does not exist aborts with FileNotFoundError after loading
"1". -/
theorem missing_submission_dir_aborts_witness :
    loadContent (fun d => if d = "submissions/1" then some ["a.yml", "a.tex"] else none)
        (fun _ => [("title", "T1"), ("permalink", "p1")])
        ["1", "2", "3"] =
      ([.loaded "T1"], .error (.fileNotFound (pathJoin SUBMISSIONS_DIR "2"))) ∧
    (mainRun { configIds := ["1", "2", "3"],
               subdirs := fun d => if d = "submissions/1" then some ["a.yml", "a.tex"] else none,
               yamlOf := fun _ => [("title", "T1"), ("permalink", "p1")],
               compiler := fun _ => .success,
               assetsExists := false, outputExists := true, initialOutput := ["stale.pdf"] }).err =
      some (.fileNotFound (pathJoin SUBMISSIONS_DIR "2")) ∧
    (mainRun { configIds := ["1", "2", "3"],
               subdirs := fun d => if d = "submissions/1" then some ["a.yml", "a.tex"] else none,
               yamlOf := fun _ => [("title", "T1"), ("permalink", "p1")],
               compiler := fun _ => .success,
               assetsExists := false, outputExists := true, initialOutput := ["stale.pdf"] }).output = [] ∧
    (mainRun { configIds := ["1", "2", "3"],
               subdirs := fun d => if d = "submissions/1" then some ["a.yml", "a.tex"] else none,
               yamlOf := fun _ => [("title", "T1"), ("permalink", "p1")],
               compiler := fun _ => .success,
               assetsExists := false, outputExists := true, initialOutput := ["stale.pdf"] }).content = [] :=
  missing_submission_dir_aborts
    { configIds := ["1", "2", "3"],
      subdirs := fun d => if d = "submissions/1" then some ["a.yml", "a.tex"] else none,
      yamlOf := fun _ => [("title", "T1"), ("permalink", "p1")],
      compiler := fun _ => .success,
      assetsExists := false, outputExists := true, initialOutput := ["stale.pdf"] }
    ["1"] ["3"] "2"
    [.loaded "T1"]
    [{ metadata := [("pdf_link", "p1" ++ ".pdf"), ("id", "1"), ("title", "T1"), ("permalink", "p1")],
       tex_path := "submissions/1/a.tex" }]
    rfl (by rfl) (by rfl)

/-- Claim C10: a submission whose metadata file parses but lacks a `permalink` field (or,
later in the load step, a `title` field) makes the loader raise an uncaught
KeyError that aborts the whole run; it is not skipped with a warning. -/
theorem missing_metadata_key_aborts
    (env : Env) (pre post : List String) (item_id : String)
    (lgPre : List LogLine) (itemsPre : List Item)
    (files : List String) (mf tf : String)
    (hids : env.configIds = pre ++ item_id :: post)
    (hpre : loadContent env.subdirs env.yamlOf pre = (lgPre, .ok itemsPre))
    (hdir : env.subdirs (pathJoin SUBMISSIONS_DIR item_id) = some files)
    (hmf : files.find? (fun f => strEndsWith f ".yml") = some mf)
    (htf : files.find? (fun f => strEndsWith f ".tex") = some tf) :
    ((env.yamlOf (pathJoin (pathJoin SUBMISSIONS_DIR item_id) mf)).lookup "permalink" = none →
      loadContent env.subdirs env.yamlOf env.configIds = (lgPre, .error (.keyError "permalink")) ∧
      (mainRun env).err = some (.keyError "permalink") ∧
      (mainRun env).output = []) ∧
    (∀ pl, (env.yamlOf (pathJoin (pathJoin SUBMISSIONS_DIR item_id) mf)).lookup "permalink" = some pl →
      (env.yamlOf (pathJoin (pathJoin SUBMISSIONS_DIR item_id) mf)).lookup "title" = none →
      loadContent env.subdirs env.yamlOf env.configIds = (lgPre, .error (.keyError "title")) ∧
      (mainRun env).err = some (.keyError "title") ∧
      (mainRun env).output = []) := by
  constructor
  · intro hperm
    have hp1 : (dictInsert (env.yamlOf (pathJoin (pathJoin SUBMISSIONS_DIR item_id) mf)) "id" item_id).lookup "permalink" = none := by
      rw [lookup_dictInsert_ne _ _ _ _ (by decide)]; exact hperm
    have hitem : loadItem env.subdirs env.yamlOf item_id = ([], .error (.keyError "permalink")) := by
      simp [loadItem, hdir, hmf, htf, hp1]
    have := loader_error_aborts env pre post item_id lgPre itemsPre _ hids hpre hitem
    exact ⟨this.1, this.2.1, this.2.2.1⟩
  · intro pl hperm htitle
    have hp1 : (dictInsert (env.yamlOf (pathJoin (pathJoin SUBMISSIONS_DIR item_id) mf)) "id" item_id).lookup "permalink" = some pl := by
      rw [lookup_dictInsert_ne _ _ _ _ (by decide)]; exact hperm
    have ht1 : (dictInsert (dictInsert (env.yamlOf (pathJoin (pathJoin SUBMISSIONS_DIR item_id) mf)) "id" item_id) "pdf_link" (pl ++ ".pdf")).lookup "title" = none := by
      rw [lookup_dictInsert_ne _ _ _ _ (by decide), lookup_dictInsert_ne _ _ _ _ (by decide)]
      exact htitle
    have hitem : loadItem env.subdirs env.yamlOf item_id = ([], .error (.keyError "title")) := by
      simp [loadItem, hdir, hmf, htf, hp1, ht1]
    have := loader_error_aborts env pre post item_id lgPre itemsPre _ hids hpre hitem
    exact ⟨this.1, this.2.1, this.2.2.1⟩

/-- Witness for claim C10: a single-identifier manifest whose metadata has a
title but no permalink aborts with KeyError "permalink", and one whose
metadata has a permalink but no title aborts with KeyError "title". -/
theorem missing_metadata_key_aborts_witness :
    (loadContent (fun d => if d = "submissions/5" then some ["m.yml", "m.tex"] else none)
        (fun _ => [("title", "T")]) ["5"] =
      ([], .error (.keyError "permalink")) ∧
    (mainRun
      { configIds := ["5"],
        subdirs := fun d => if d = "submissions/5" then some ["m.yml", "m.tex"] else none,
        yamlOf := fun _ => [("title", "T")],
        compiler := fun _ => .success,
        assetsExists := false, outputExists := false, initialOutput := [] }).err =
      some (.keyError "permalink") ∧
    (mainRun
      { configIds := ["5"],
        subdirs := fun d => if d = "submissions/5" then some ["m.yml", "m.tex"] else none,
        yamlOf := fun _ => [("title", "T")],
        compiler := fun _ => .success,
        assetsExists := false, outputExists := false, initialOutput := [] }).output = []) ∧
    (loadContent (fun d => if d = "submissions/5" then some ["m.yml", "m.tex"] else none)
        (fun _ => [("permalink", "q")]) ["5"] =
      ([], .error (.keyError "title")) ∧
    (mainRun
      { configIds := ["5"],
        subdirs := fun d => if d = "submissions/5" then some ["m.yml", "m.tex"] else none,
        yamlOf := fun _ => [("permalink", "q")],
        compiler := fun _ => .success,
        assetsExists := false, outputExists := false, initialOutput := [] }).err =
      some (.keyError "title") ∧
    (mainRun
      { configIds := ["5"],
        subdirs := fun d => if d = "submissions/5" then some ["m.yml", "m.tex"] else none,
        yamlOf := fun _ => [("permalink", "q")],
        compiler := fun _ => .success,
        assetsExists := false, outputExists := false, initialOutput := [] }).output = []) :=
  ⟨(missing_metadata_key_aborts
      { configIds := ["5"],
        subdirs := fun d => if d = "submissions/5" then some ["m.yml", "m.tex"] else none,
        yamlOf := fun _ => [("title", "T")],
        compiler := fun _ => .success,
        assetsExists := false, outputExists := false, initialOutput := [] }
      [] [] "5" [] [] ["m.yml", "m.tex"] "m.yml" "m.tex"
      rfl (by rfl) (by rfl) (by rfl) (by rfl)).1 (by rfl),
   (missing_metadata_key_aborts
      { configIds := ["5"],
        subdirs := fun d => if d = "submissions/5" then some ["m.yml", "m.tex"] else none,
        yamlOf := fun _ => [("permalink", "q")],
        compiler := fun _ => .success,
        assetsExists := false, outputExists := false, initialOutput := [] }
      [] [] "5" [] [] ["m.yml", "m.tex"] "m.yml" "m.tex"
      rfl (by rfl) (by rfl) (by rfl) (by rfl)).2 "q" (by rfl) (by rfl)⟩

/-! ## Content list construction (order and filtering) -/

/-- Claim C5: the loader's content list is exactly the manifest identifier sequence
restricted to non-skipped submissions, in manifest order: mapping each loaded
item to its `id` metadata field recovers precisely the non-skipped
identifiers. -/
theorem content_list_matches_manifest_order
    (s : String → Option (List String)) (y : String → Metadata) :
    ∀ (ids : List String) (lg : List LogLine) (items : List Item),
      loadContent s y ids = (lg, .ok items) →
      items.map (fun it => it.metadata.lookup "id") =
        (ids.filter (fun i => notSkipped s i)).map some := by
  intro ids
  induction ids with
  | nil =>
    intro lg items h
    simp only [loadContent, Prod.mk.injEq, Except.ok.injEq] at h
    rw [← h.2]
    simp
  | cons a t ih =>
    intro lg items h
    cases hli : loadItem s y a with
    | mk lga r =>
      cases r with
      | error e => simp [loadContent, hli] at h
      | ok o =>
        cases o with
        | none =>
          cases ht : loadContent s y t with
          | mk lt rt =>
            simp only [loadContent, hli, ht] at h
            cases rt with
            | error e => simp at h
            | ok its =>
              simp only [Prod.mk.injEq, Except.ok.injEq] at h
              have hskip := (loadItem_ok_none_inv s y a lga hli).1
              rw [← h.2]
              simp only [List.filter_cons, hskip, Bool.false_eq_true, if_false]
              exact ih lt its (by rw [ht])
        | some it =>
          cases ht : loadContent s y t with
          | mk lt rt =>
            cases rt with
            | error e => simp [loadContent, hli, ht] at h
            | ok its =>
              simp only [loadContent, hli, ht, Prod.mk.injEq, Except.ok.injEq] at h
              have hsome := loadItem_ok_some_inv s y a lga it hli
              rw [← h.2]
              simp only [List.filter_cons, hsome.1, if_true, List.map_cons, List.cons.injEq]
              exact ⟨hsome.2.1, ih lt its (by rw [ht])⟩

/-- Witness for claim C5: manifest ["1", "2"] where "2" has an empty directory yields a
content list whose id fields are exactly the filtered manifest, namely
["1"]. -/
theorem content_list_matches_manifest_order_witness :
    ([{ metadata := [("pdf_link", "p1" ++ ".pdf"), ("id", "1"), ("title", "T1"), ("permalink", "p1")],
        tex_path := "submissions/1/a.tex" }] : List Item).map (fun it => it.metadata.lookup "id") =
      ((["1", "2"].filter (fun i => notSkipped (fun d => if d = "submissions/1" then some ["a.yml", "a.tex"] else if d = "submissions/2" then some [] else none) i)).map some) :=
  content_list_matches_manifest_order
    (fun d => if d = "submissions/1" then some ["a.yml", "a.tex"] else if d = "submissions/2" then some [] else none)
    (fun _ => [("title", "T1"), ("permalink", "p1")])
    ["1", "2"]
    [.loaded "T1", .warnMissing "2"]
    [{ metadata := [("pdf_link", "p1" ++ ".pdf"), ("id", "1"), ("title", "T1"), ("permalink", "p1")],
       tex_path := "submissions/1/a.tex" }]
    (by rfl)

/-! ## Metadata enrichment at load time -/

/-- Claim C6: a loaded submission's metadata record is enriched exactly once, at load
time: the `id` field holds the manifest identifier, the `pdf_link` field
holds the permalink followed by ".pdf", every other key's value is exactly
what the YAML parser produced, the source path is the found tex file, and no
later stage mutates the record — the content list `main` carries to the
build and render stages is the loader's output itself. -/
theorem metadata_enriched_once_at_load
    (s : String → Option (List String)) (y : String → Metadata)
    (item_id mf tf : String) (files : List String) (lg : List LogLine) (it : Item)
    (hdir : s (pathJoin SUBMISSIONS_DIR item_id) = some files)
    (hmf : files.find? (fun f => strEndsWith f ".yml") = some mf)
    (htf : files.find? (fun f => strEndsWith f ".tex") = some tf)
    (h : loadItem s y item_id = (lg, .ok (some it))) :
    (∀ k, k ≠ "id" → k ≠ "pdf_link" →
      it.metadata.lookup k = (y (pathJoin (pathJoin SUBMISSIONS_DIR item_id) mf)).lookup k) ∧
    it.metadata.lookup "id" = some item_id ∧
    (∃ pl, (y (pathJoin (pathJoin SUBMISSIONS_DIR item_id) mf)).lookup "permalink" = some pl ∧
      it.metadata.lookup "pdf_link" = some (pl ++ ".pdf")) ∧
    it.tex_path = pathJoin (pathJoin SUBMISSIONS_DIR item_id) tf ∧
    (∀ env : Env, ∀ lg2 items, loadContent env.subdirs env.yamlOf env.configIds = (lg2, .ok items) →
      (mainRun env).content = items) := by
  cases hp : (dictInsert (y (pathJoin (pathJoin SUBMISSIONS_DIR item_id) mf)) "id" item_id).lookup "permalink" with
  | none => simp [loadItem, hdir, hmf, htf, hp] at h
  | some pl =>
    cases ht2 : (dictInsert (dictInsert (y (pathJoin (pathJoin SUBMISSIONS_DIR item_id) mf)) "id" item_id) "pdf_link" (pl ++ ".pdf")).lookup "title" with
    | none => simp [loadItem, hdir, hmf, htf, hp, ht2] at h
    | some t =>
      simp only [loadItem, hdir, hmf, htf, hp, ht2, Prod.mk.injEq, Except.ok.injEq,
        Option.some.injEq] at h
      obtain ⟨hlg, hit⟩ := h
      refine ⟨?_, ?_, ⟨pl, ?_, ?_⟩, ?_, ?_⟩
      · intro k hk1 hk2
        rw [← hit, lookup_dictInsert_ne _ _ _ _ hk2, lookup_dictInsert_ne _ _ _ _ hk1]
      · rw [← hit, lookup_dictInsert_ne _ _ _ _ (by decide)]
        exact lookup_dictInsert_self _ _ _
      · rw [← lookup_dictInsert_ne (y (pathJoin (pathJoin SUBMISSIONS_DIR item_id) mf)) "permalink" "id" item_id (by decide)]
        exact hp
      · rw [← hit]
        exact lookup_dictInsert_self _ _ _
      · rw [← hit]
      · intro env lg2 items hl
        exact mainRun_content env lg2 items hl

/-- Witness for claim C6: the enrichment theorem at a concrete submission
"7" whose YAML has a title, a permalink and one passthrough field; the
passthrough lookups, the injected fields, the source path and the unchanged
content list of a concrete run are all checked. -/
theorem metadata_enriched_once_at_load_witness :
    (([("pdf_link", "q" ++ ".pdf"), ("id", "7"), ("title", "T"), ("permalink", "q"), ("extra", "v")] : Metadata)).lookup "title" =
      (((fun _ => [("title", "T"), ("permalink", "q"), ("extra", "v")]) (pathJoin (pathJoin SUBMISSIONS_DIR "7") "b.yml") : Metadata)).lookup "title" ∧
    (([("pdf_link", "q" ++ ".pdf"), ("id", "7"), ("title", "T"), ("permalink", "q"), ("extra", "v")] : Metadata)).lookup "extra" =
      (((fun _ => [("title", "T"), ("permalink", "q"), ("extra", "v")]) (pathJoin (pathJoin SUBMISSIONS_DIR "7") "b.yml") : Metadata)).lookup "extra" ∧
    (([("pdf_link", "q" ++ ".pdf"), ("id", "7"), ("title", "T"), ("permalink", "q"), ("extra", "v")] : Metadata)).lookup "id" = some "7" ∧
    (∃ pl, (((fun _ => [("title", "T"), ("permalink", "q"), ("extra", "v")]) (pathJoin (pathJoin SUBMISSIONS_DIR "7") "b.yml") : Metadata)).lookup "permalink" = some pl ∧
      (([("pdf_link", "q" ++ ".pdf"), ("id", "7"), ("title", "T"), ("permalink", "q"), ("extra", "v")] : Metadata)).lookup "pdf_link" = some (pl ++ ".pdf")) ∧
    ({ metadata := [("pdf_link", "q" ++ ".pdf"), ("id", "7"), ("title", "T"), ("permalink", "q"), ("extra", "v")],
       tex_path := "submissions/7/b.tex" } : Item).tex_path = pathJoin (pathJoin SUBMISSIONS_DIR "7") "b.tex" ∧
    (mainRun
      { configIds := ["7"],
        subdirs := fun d => if d = "submissions/7" then some ["b.yml", "b.tex"] else none,
        yamlOf := fun _ => [("title", "T"), ("permalink", "q"), ("extra", "v")],
        compiler := fun _ => .success,
        assetsExists := false, outputExists := false, initialOutput := [] }).content =
      [{ metadata := [("pdf_link", "q" ++ ".pdf"), ("id", "7"), ("title", "T"), ("permalink", "q"), ("extra", "v")],
         tex_path := "submissions/7/b.tex" }] := by
  have h := metadata_enriched_once_at_load
    (fun d => if d = "submissions/7" then some ["b.yml", "b.tex"] else none)
    (fun _ => [("title", "T"), ("permalink", "q"), ("extra", "v")])
    "7" "b.yml" "b.tex" ["b.yml", "b.tex"] [.loaded "T"]
    { metadata := [("pdf_link", "q" ++ ".pdf"), ("id", "7"), ("title", "T"), ("permalink", "q"), ("extra", "v")],
      tex_path := "submissions/7/b.tex" }
    (by rfl) (by rfl) (by rfl) (by rfl)
  exact ⟨h.1 "title" (by decide) (by decide), h.1 "extra" (by decide) (by decide),
    h.2.1, h.2.2.1, h.2.2.2.1,
    h.2.2.2.2
      { configIds := ["7"],
        subdirs := fun d => if d = "submissions/7" then some ["b.yml", "b.tex"] else none,
        yamlOf := fun _ => [("title", "T"), ("permalink", "q"), ("extra", "v")],
        compiler := fun _ => .success,
        assetsExists := false, outputExists := false, initialOutput := [] }
      [.loaded "T"]
      [{ metadata := [("pdf_link", "q" ++ ".pdf"), ("id", "7"), ("title", "T"), ("permalink", "q"), ("extra", "v")],
         tex_path := "submissions/7/b.tex" }]
      (by rfl)⟩

/-! ## Build loop: abort on compiler failure -/

/-- The build loop over a concatenation runs the first part, and continues
into the second part only when no exception was raised. -/
lemma buildLoop_append (c : String → CompileResult) :
    ∀ (its1 its2 : List Item) (st : BuildState),
      buildLoop c st (its1 ++ its2) =
        match buildLoop c st its1 with
        | (st1, none) => buildLoop c st1 its2
        | (st1, some e) => (st1, some e) := by
  intro its1
  induction its1 with
  | nil => intro its2 st; simp [buildLoop]
  | cons i t ih =>
    intro its2 st
    simp only [List.cons_append, buildLoop]
    cases hb : buildItem c st i with
    | mk st1 e =>
      cases e with
      | none => simp only [hb]; exact ih its2 st1
      | some e2 => simp only [hb]

/-- Claim C2: a nonzero compiler exit at one submission (after a cleanly built prefix
of the content list) prints the captured stdout and stderr, propagates the
CalledProcessError so the run fails, leaves the output directory exactly as
it was before that submission — in particular its HTML page is never written
— and invokes the compiler on no later submission: the invocation list ends
at the failing source file. -/
theorem compile_failure_aborts_run
    (env : Env) (lg : List LogLine) (items preI postI : List Item) (bad : Item)
    (st1 : BuildState) (pl so se : String)
    (hload : loadContent env.subdirs env.yamlOf env.configIds = (lg, .ok items))
    (hsplit : items = preI ++ bad :: postI)
    (hpre : buildLoop env.compiler (initialBuildState env lg) preI = (st1, none))
    (hpl : bad.metadata.lookup "permalink" = some pl)
    (hfail : env.compiler bad.tex_path = .failure so se) :
    (mainRun env).err = some .calledProcessError ∧
    (mainRun env).log = st1.log ++
      [.compiling pl, .errorCompiling bad.tex_path, .stdoutLine so, .stderrLine se] ∧
    (mainRun env).output = st1.out ∧
    (mainRun env).invocations = st1.invocations ++ [bad.tex_path] := by
  have hbad : buildItem env.compiler st1 bad =
      ({ out := st1.out,
         log := st1.log ++ [.compiling pl] ++
           [.errorCompiling bad.tex_path, .stdoutLine so, .stderrLine se],
         invocations := st1.invocations ++ [bad.tex_path] }, some .calledProcessError) := by
    simp [buildItem, hpl, run_pdflatex, hfail]
  have hloop : buildLoop env.compiler (initialBuildState env lg) items =
      ({ out := st1.out,
         log := st1.log ++ [.compiling pl] ++
           [.errorCompiling bad.tex_path, .stdoutLine so, .stderrLine se],
         invocations := st1.invocations ++ [bad.tex_path] }, some .calledProcessError) := by
    rw [hsplit, buildLoop_append, hpre]
    simp [buildLoop, hbad]
  refine ⟨?_, ?_, ?_, ?_⟩ <;> simp [mainRun, hload, hloop]

/-- Witness for claim C2: manifest ["1", "2"], both submissions valid, the compiler fails
on the first source file; the run aborts with the captured output printed,
no HTML page written, and no invocation for submission "2". -/
theorem compile_failure_aborts_run_witness :
    (mainRun { configIds := ["1", "2"],
               subdirs := fun d => if d = "submissions/1" then some ["a.yml", "a.tex"]
                 else if d = "submissions/2" then some ["b.yml", "b.tex"] else none,
               yamlOf := fun p => if p = "submissions/1/a.yml" then [("title", "T1"), ("permalink", "p1")]
                 else [("title", "T2"), ("permalink", "p2")],
               compiler := fun p => if p = "submissions/1/a.tex" then .failure "OUT" "ERR" else .success,
               assetsExists := false, outputExists := false, initialOutput := [] }).err =
      some .calledProcessError ∧
    (mainRun { configIds := ["1", "2"],
               subdirs := fun d => if d = "submissions/1" then some ["a.yml", "a.tex"]
                 else if d = "submissions/2" then some ["b.yml", "b.tex"] else none,
               yamlOf := fun p => if p = "submissions/1/a.yml" then [("title", "T1"), ("permalink", "p1")]
                 else [("title", "T2"), ("permalink", "p2")],
               compiler := fun p => if p = "submissions/1/a.tex" then .failure "OUT" "ERR" else .success,
               assetsExists := false, outputExists := false, initialOutput := [] }).log =
      (initialBuildState
        { configIds := ["1", "2"],
               subdirs := fun d => if d = "submissions/1" then some ["a.yml", "a.tex"]
                 else if d = "submissions/2" then some ["b.yml", "b.tex"] else none,
               yamlOf := fun p => if p = "submissions/1/a.yml" then [("title", "T1"), ("permalink", "p1")]
                 else [("title", "T2"), ("permalink", "p2")],
               compiler := fun p => if p = "submissions/1/a.tex" then .failure "OUT" "ERR" else .success,
               assetsExists := false, outputExists := false, initialOutput := [] }
        [.loaded "T1", .loaded "T2"]).log ++
      [.compiling "p1", .errorCompiling "submissions/1/a.tex", .stdoutLine "OUT", .stderrLine "ERR"] ∧
    (mainRun { configIds := ["1", "2"],
               subdirs := fun d => if d = "submissions/1" then some ["a.yml", "a.tex"]
                 else if d = "submissions/2" then some ["b.yml", "b.tex"] else none,
               yamlOf := fun p => if p = "submissions/1/a.yml" then [("title", "T1"), ("permalink", "p1")]
                 else [("title", "T2"), ("permalink", "p2")],
               compiler := fun p => if p = "submissions/1/a.tex" then .failure "OUT" "ERR" else .success,
               assetsExists := false, outputExists := false, initialOutput := [] }).output =
      (initialBuildState
        { configIds := ["1", "2"],
               subdirs := fun d => if d = "submissions/1" then some ["a.yml", "a.tex"]
                 else if d = "submissions/2" then some ["b.yml", "b.tex"] else none,
               yamlOf := fun p => if p = "submissions/1/a.yml" then [("title", "T1"), ("permalink", "p1")]
                 else [("title", "T2"), ("permalink", "p2")],
               compiler := fun p => if p = "submissions/1/a.tex" then .failure "OUT" "ERR" else .success,
               assetsExists := false, outputExists := false, initialOutput := [] }
        [.loaded "T1", .loaded "T2"]).out ∧
    (mainRun { configIds := ["1", "2"],
               subdirs := fun d => if d = "submissions/1" then some ["a.yml", "a.tex"]
                 else if d = "submissions/2" then some ["b.yml", "b.tex"] else none,
               yamlOf := fun p => if p = "submissions/1/a.yml" then [("title", "T1"), ("permalink", "p1")]
                 else [("title", "T2"), ("permalink", "p2")],
               compiler := fun p => if p = "submissions/1/a.tex" then .failure "OUT" "ERR" else .success,
               assetsExists := false, outputExists := false, initialOutput := [] }).invocations =
      (initialBuildState
        { configIds := ["1", "2"],
               subdirs := fun d => if d = "submissions/1" then some ["a.yml", "a.tex"]
                 else if d = "submissions/2" then some ["b.yml", "b.tex"] else none,
               yamlOf := fun p => if p = "submissions/1/a.yml" then [("title", "T1"), ("permalink", "p1")]
                 else [("title", "T2"), ("permalink", "p2")],
               compiler := fun p => if p = "submissions/1/a.tex" then .failure "OUT" "ERR" else .success,
               assetsExists := false, outputExists := false, initialOutput := [] }
        [.loaded "T1", .loaded "T2"]).invocations ++ ["submissions/1/a.tex"] :=
  compile_failure_aborts_run
    { configIds := ["1", "2"],
      subdirs := fun d => if d = "submissions/1" then some ["a.yml", "a.tex"]
        else if d = "submissions/2" then some ["b.yml", "b.tex"] else none,
      yamlOf := fun p => if p = "submissions/1/a.yml" then [("title", "T1"), ("permalink", "p1")]
        else [("title", "T2"), ("permalink", "p2")],
      compiler := fun p => if p = "submissions/1/a.tex" then .failure "OUT" "ERR" else .success,
      assetsExists := false, outputExists := false, initialOutput := [] }
    [.loaded "T1", .loaded "T2"]
    [{ metadata := [("pdf_link", "p1" ++ ".pdf"), ("id", "1"), ("title", "T1"), ("permalink", "p1")],
       tex_path := "submissions/1/a.tex" },
     { metadata := [("pdf_link", "p2" ++ ".pdf"), ("id", "2"), ("title", "T2"), ("permalink", "p2")],
       tex_path := "submissions/2/b.tex" }]
    []
    [{ metadata := [("pdf_link", "p2" ++ ".pdf"), ("id", "2"), ("title", "T2"), ("permalink", "p2")],
       tex_path := "submissions/2/b.tex" }]
    { metadata := [("pdf_link", "p1" ++ ".pdf"), ("id", "1"), ("title", "T1"), ("permalink", "p1")],
      tex_path := "submissions/1/a.tex" }
    (initialBuildState
      { configIds := ["1", "2"],
        subdirs := fun d => if d = "submissions/1" then some ["a.yml", "a.tex"]
          else if d = "submissions/2" then some ["b.yml", "b.tex"] else none,
        yamlOf := fun p => if p = "submissions/1/a.yml" then [("title", "T1"), ("permalink", "p1")]
          else [("title", "T2"), ("permalink", "p2")],
        compiler := fun p => if p = "submissions/1/a.tex" then .failure "OUT" "ERR" else .success,
        assetsExists := false, outputExists := false, initialOutput := [] }
      [.loaded "T1", .loaded "T2"])
    "p1" "OUT" "ERR"
    (by rfl) rfl (by rfl) (by rfl) (by rfl)

/-! ## Asset copying -/

/-- Claim C8: on a run that loads and builds cleanly, the asset copier copies the
assets directory into the output tree exactly when that directory exists —
the copied subtree then being present in the final output listing — and when
it is absent the output is untouched by this step and no error is raised
either way. -/
theorem assets_copied_iff_present
    (env : Env) (lg : List LogLine) (items : List Item) (st : BuildState)
    (hload : loadContent env.subdirs env.yamlOf env.configIds = (lg, .ok items))
    (hbuild : buildLoop env.compiler (initialBuildState env lg) items = (st, none)) :
    (mainRun env).err = none ∧
    (env.assetsExists = true →
      (mainRun env).output = writeFile (pathJoin OUTPUT_DIR ASSETS_DIR) (writeFile "index.html" st.out) ∧
      pathJoin OUTPUT_DIR ASSETS_DIR ∈ (mainRun env).output) ∧
    (env.assetsExists = false →
      (mainRun env).output = writeFile "index.html" st.out) := by
  refine ⟨?_, ?_, ?_⟩
  · simp [mainRun, hload, hbuild]
  · intro ha
    refine ⟨by simp [mainRun, hload, hbuild, ha], ?_⟩
    simp only [mainRun, hload, hbuild, ha]
    exact mem_writeFile_self _ _
  · intro ha
    simp [mainRun, hload, hbuild, ha]

/-- Witness for claim C8: with an existing assets directory the copied
subtree lands in the output tree next to the index page; with the assets
directory absent the identical run produces the same output without the
subtree; neither run raises an error. -/
theorem assets_copied_iff_present_witness :
    (mainRun
      { configIds := ["1"],
        subdirs := fun d => if d = "submissions/1" then some ["a.yml", "a.tex"] else none,
        yamlOf := fun _ => [("title", "T1"), ("permalink", "p1")],
        compiler := fun _ => .success,
        assetsExists := true, outputExists := false, initialOutput := [] }).err = none ∧
    (mainRun
      { configIds := ["1"],
        subdirs := fun d => if d = "submissions/1" then some ["a.yml", "a.tex"] else none,
        yamlOf := fun _ => [("title", "T1"), ("permalink", "p1")],
        compiler := fun _ => .success,
        assetsExists := true, outputExists := false, initialOutput := [] }).output =
      writeFile (pathJoin OUTPUT_DIR ASSETS_DIR) (writeFile "index.html"
        ({ out := ["p1.pdf", "p1.html"],
           log := [.startBanner, .loadingBanner, .loaded "T1", .pdfBanner, .compiling "p1", .buildingMeta],
           invocations := ["submissions/1/a.tex"] } : BuildState).out) ∧
    pathJoin OUTPUT_DIR ASSETS_DIR ∈
      (mainRun
        { configIds := ["1"],
          subdirs := fun d => if d = "submissions/1" then some ["a.yml", "a.tex"] else none,
          yamlOf := fun _ => [("title", "T1"), ("permalink", "p1")],
          compiler := fun _ => .success,
          assetsExists := true, outputExists := false, initialOutput := [] }).output ∧
    (mainRun
      { configIds := ["1"],
        subdirs := fun d => if d = "submissions/1" then some ["a.yml", "a.tex"] else none,
        yamlOf := fun _ => [("title", "T1"), ("permalink", "p1")],
        compiler := fun _ => .success,
        assetsExists := false, outputExists := false, initialOutput := [] }).err = none ∧
    (mainRun
      { configIds := ["1"],
        subdirs := fun d => if d = "submissions/1" then some ["a.yml", "a.tex"] else none,
        yamlOf := fun _ => [("title", "T1"), ("permalink", "p1")],
        compiler := fun _ => .success,
        assetsExists := false, outputExists := false, initialOutput := [] }).output =
      writeFile "index.html"
        ({ out := ["p1.pdf", "p1.html"],
           log := [.startBanner, .loadingBanner, .loaded "T1", .pdfBanner, .compiling "p1", .buildingMeta],
           invocations := ["submissions/1/a.tex"] } : BuildState).out :=
  ⟨(assets_copied_iff_present
      { configIds := ["1"],
        subdirs := fun d => if d = "submissions/1" then some ["a.yml", "a.tex"] else none,
        yamlOf := fun _ => [("title", "T1"), ("permalink", "p1")],
        compiler := fun _ => .success,
        assetsExists := true, outputExists := false, initialOutput := [] }
      [.loaded "T1"]
      [{ metadata := [("pdf_link", "p1" ++ ".pdf"), ("id", "1"), ("title", "T1"), ("permalink", "p1")],
         tex_path := "submissions/1/a.tex" }]
      { out := ["p1.pdf", "p1.html"],
        log := [.startBanner, .loadingBanner, .loaded "T1", .pdfBanner, .compiling "p1", .buildingMeta],
        invocations := ["submissions/1/a.tex"] }
      (by rfl) (by rfl)).1,
   ((assets_copied_iff_present
      { configIds := ["1"],
        subdirs := fun d => if d = "submissions/1" then some ["a.yml", "a.tex"] else none,
        yamlOf := fun _ => [("title", "T1"), ("permalink", "p1")],
        compiler := fun _ => .success,
        assetsExists := true, outputExists := false, initialOutput := [] }
      [.loaded "T1"]
      [{ metadata := [("pdf_link", "p1" ++ ".pdf"), ("id", "1"), ("title", "T1"), ("permalink", "p1")],
         tex_path := "submissions/1/a.tex" }]
      { out := ["p1.pdf", "p1.html"],
        log := [.startBanner, .loadingBanner, .loaded "T1", .pdfBanner, .compiling "p1", .buildingMeta],
        invocations := ["submissions/1/a.tex"] }
      (by rfl) (by rfl)).2.1 rfl).1,
   ((assets_copied_iff_present
      { configIds := ["1"],
        subdirs := fun d => if d = "submissions/1" then some ["a.yml", "a.tex"] else none,
        yamlOf := fun _ => [("title", "T1"), ("permalink", "p1")],
        compiler := fun _ => .success,
        assetsExists := true, outputExists := false, initialOutput := [] }
      [.loaded "T1"]
      [{ metadata := [("pdf_link", "p1" ++ ".pdf"), ("id", "1"), ("title", "T1"), ("permalink", "p1")],
         tex_path := "submissions/1/a.tex" }]
      { out := ["p1.pdf", "p1.html"],
        log := [.startBanner, .loadingBanner, .loaded "T1", .pdfBanner, .compiling "p1", .buildingMeta],
        invocations := ["submissions/1/a.tex"] }
      (by rfl) (by rfl)).2.1 rfl).2,
   (assets_copied_iff_present
      { configIds := ["1"],
        subdirs := fun d => if d = "submissions/1" then some ["a.yml", "a.tex"] else none,
        yamlOf := fun _ => [("title", "T1"), ("permalink", "p1")],
        compiler := fun _ => .success,
        assetsExists := false, outputExists := false, initialOutput := [] }
      [.loaded "T1"]
      [{ metadata := [("pdf_link", "p1" ++ ".pdf"), ("id", "1"), ("title", "T1"), ("permalink", "p1")],
         tex_path := "submissions/1/a.tex" }]
      { out := ["p1.pdf", "p1.html"],
        log := [.startBanner, .loadingBanner, .loaded "T1", .pdfBanner, .compiling "p1", .buildingMeta],
        invocations := ["submissions/1/a.tex"] }
      (by rfl) (by rfl)).1,
   (assets_copied_iff_present
      { configIds := ["1"],
        subdirs := fun d => if d = "submissions/1" then some ["a.yml", "a.tex"] else none,
        yamlOf := fun _ => [("title", "T1"), ("permalink", "p1")],
        compiler := fun _ => .success,
        assetsExists := false, outputExists := false, initialOutput := [] }
      [.loaded "T1"]
      [{ metadata := [("pdf_link", "p1" ++ ".pdf"), ("id", "1"), ("title", "T1"), ("permalink", "p1")],
         tex_path := "submissions/1/a.tex" }]
      { out := ["p1.pdf", "p1.html"],
        log := [.startBanner, .loadingBanner, .loaded "T1", .pdfBanner, .compiling "p1", .buildingMeta],
        invocations := ["submissions/1/a.tex"] }
      (by rfl) (by rfl)).2.2 rfl⟩

/-! ## Clean-run output characterization -/

/-- Names ending in ".html" are injective in their stem. -/
lemma html_stem_inj (s t : String) (h : s ++ ".html" = t ++ ".html") : s = t :=
  append_right_inj s t ".html" h

/-- One successful build-loop iteration rewrites the output listing to the
previous listing minus the three touched names, plus the item's two artifact
names. -/
lemma step_out (O : List String) (b p : String) :
    writeFile (p ++ ".html") (moveFile (b ++ ".pdf") (p ++ ".pdf") (writeFile (b ++ ".pdf") O)) =
      ((O.filter (fun m => m ≠ b ++ ".pdf")).filter (fun m => m ≠ p ++ ".pdf")).filter
          (fun m => m ≠ p ++ ".html") ++
        [p ++ ".pdf", p ++ ".html"] := by
  simp [writeFile, moveFile, List.filter_append, List.filter_filter, pdf_ne_html p p]

/-- The two artifact names of an item are not clobbered by later items when
permalinks are distinct and no later base name equals this permalink. -/
lemma artifact_names_survive (p : String) (ps2 : List (String × String))
    (hps : ∀ bq ∈ ps2, p ≠ bq.2 ∧ bq.1 ≠ p) :
    clobbers ps2 (p ++ ".pdf") = false ∧ clobbers ps2 (p ++ ".html") = false := by
  constructor <;> simp only [clobbers, List.any_eq_false]
  · intro bq hbq h
    simp only [Bool.or_eq_true, decide_eq_true_eq] at h
    rcases h with (h | h) | h
    · exact (hps bq hbq).2 (append_right_inj _ _ _ h).symm
    · exact (hps bq hbq).1 (append_right_inj _ _ _ h)
    · exact pdf_ne_html p bq.2 h
  · intro bq hbq h
    simp only [Bool.or_eq_true, decide_eq_true_eq] at h
    rcases h with (h | h) | h
    · exact pdf_ne_html bq.1 p h.symm
    · exact pdf_ne_html bq.2 p h.symm
    · exact (hps bq hbq).1 (html_stem_inj _ _ h)

/-- One successful iteration, seen through the later items' clobber filter:
the previous listing keeps exactly the names no item clobbers, and the two
fresh artifact names survive to the end. -/
lemma step_filter_clobbers (O : List String) (b p : String) (ps2 : List (String × String))
    (hps : ∀ bq ∈ ps2, p ≠ bq.2 ∧ bq.1 ≠ p) :
    (writeFile (p ++ ".html") (moveFile (b ++ ".pdf") (p ++ ".pdf") (writeFile (b ++ ".pdf") O))).filter
        (fun n => !(clobbers ps2 n)) =
      O.filter (fun n => !(clobbers ((b, p) :: ps2) n)) ++ [p ++ ".pdf", p ++ ".html"] := by
  obtain ⟨hpdf, hhtml⟩ := artifact_names_survive p ps2 hps
  rw [step_out, List.filter_append]
  congr 1
  · simp only [List.filter_filter]
    apply List.filter_congr
    intro n _
    by_cases h1 : n = b ++ ".pdf" <;> by_cases h2 : n = p ++ ".pdf" <;>
      by_cases h3 : n = p ++ ".html" <;>
      simp [clobbers, h1, h2, h3]
  · simp [hpdf, hhtml]

/-- A build loop in which every compile succeeds raises nothing, and its
final output listing is the starting listing minus everything clobbered,
followed by each item's PDF and HTML names in production order — provided
permalinks are pairwise distinct and no later item's source base name equals
an earlier item's permalink. -/
lemma buildLoop_clean (c : String → CompileResult) :
    ∀ (items : List Item) (ps : List (String × String)) (st : BuildState),
      items.map (fun it => (splitextBase (basename it.tex_path), it.metadata.lookup "permalink"))
        = ps.map (fun bp => (bp.1, some bp.2)) →
      (∀ it ∈ items, c it.tex_path = .success) →
      ps.Pairwise (fun x y => x.2 ≠ y.2 ∧ y.1 ≠ x.2) →
      (buildLoop c st items).2 = none ∧
      (buildLoop c st items).1.out =
        st.out.filter (fun n => !(clobbers ps n)) ++ pairNames ps := by
  intro items
  induction items with
  | nil =>
    intro ps st hshape hc hpw
    cases ps with
    | nil => simp [buildLoop, pairNames, clobbers]
    | cons bp ps2 => simp at hshape
  | cons i t ih =>
    intro ps st hshape hc hpw
    cases ps with
    | nil => simp at hshape
    | cons bp ps2 =>
      simp only [List.map_cons, List.cons.injEq, Prod.mk.injEq] at hshape
      obtain ⟨⟨hb, hpl⟩, hrest⟩ := hshape
      have hcomp : c i.tex_path = .success := hc i (by simp)
      have hbuild : buildItem c st i =
          ({ out := writeFile (bp.2 ++ ".html")
               (moveFile (bp.1 ++ ".pdf") (bp.2 ++ ".pdf") (writeFile (bp.1 ++ ".pdf") st.out)),
             log := st.log ++ [.compiling bp.2, .buildingMeta],
             invocations := st.invocations ++ [i.tex_path] }, none) := by
        simp [buildItem, hpl, run_pdflatex, hcomp, hb, moveFile]
      have hih := ih ps2
        { out := writeFile (bp.2 ++ ".html")
            (moveFile (bp.1 ++ ".pdf") (bp.2 ++ ".pdf") (writeFile (bp.1 ++ ".pdf") st.out)),
          log := st.log ++ [.compiling bp.2, .buildingMeta],
          invocations := st.invocations ++ [i.tex_path] }
        hrest (fun it hit => hc it (by simp [hit])) (List.Pairwise.of_cons hpw)
      have hsurv : ∀ bq ∈ ps2, bp.2 ≠ bq.2 ∧ bq.1 ≠ bp.2 :=
        fun bq hbq => List.rel_of_pairwise_cons hpw hbq
      simp only [buildLoop, hbuild]
      refine ⟨hih.1, ?_⟩
      rw [hih.2]
      simp only [pairNames]
      rw [step_filter_clobbers st.out bp.1 bp.2 ps2 hsurv]
      simp [List.append_assoc]

/-- The interleaved artifact names are a permutation of all the PDF names
followed by all the HTML names. -/
lemma pairNames_perm (ps : List (String × String)) :
    List.Perm (pairNames ps)
      (ps.map (fun bp => bp.2 ++ ".pdf") ++ ps.map (fun bp => bp.2 ++ ".html")) := by
  induction ps with
  | nil => simp [pairNames]
  | cons bp ps2 ih =>
    simp only [pairNames, List.map_cons, List.cons_append]
    refine List.Perm.cons _ ?_
    exact ((ih.cons _).trans List.perm_middle.symm)

/-- When no permalink is the string "index", the index page's name is fresh
among the per-item artifact names. -/
lemma index_not_in_pairNames (ps : List (String × String))
    (hidx : ∀ bp ∈ ps, bp.2 ≠ "index") :
    "index.html" ∉ pairNames ps := by
  induction ps with
  | nil => simp [pairNames]
  | cons bp ps2 ih =>
    simp only [pairNames, List.mem_cons, not_or]
    refine ⟨?_, ?_, ih (fun bq hbq => hidx bq (by simp [hbq]))⟩
    · intro h
      have hpq : bp.2 ++ ".pdf" = "index" ++ ".html" := by rw [← h]; exact rfl
      exact pdf_ne_html bp.2 "index" hpq
    · intro h
      have hpq : bp.2 ++ ".html" = "index" ++ ".html" := by rw [← h]; exact rfl
      exact hidx bp (by simp) (html_stem_inj _ _ hpq)

/-- Each item contributes exactly two artifact names. -/
lemma pairNames_length (ps : List (String × String)) :
    (pairNames ps).length = 2 * ps.length := by
  induction ps with
  | nil => simp [pairNames]
  | cons bp ps2 ih => simp [pairNames, ih]; omega

/-- Claim C4 (amended): for a manifest whose submissions all load (so the content list has one
item per identifier), whose compiles all succeed and with no assets
directory, the run succeeds and the output directory holds exactly one PDF
and one HTML file per item plus the single index page — provided the
permalinks are pairwise distinct, none is the string "index", and no item's
source base name equals an earlier item's permalink. -/
theorem clean_run_output_files
    (env : Env) (lg : List LogLine) (items : List Item) (ps : List (String × String))
    (hload : loadContent env.subdirs env.yamlOf env.configIds = (lg, .ok items))
    (hshape : items.map (fun it => (splitextBase (basename it.tex_path), it.metadata.lookup "permalink"))
      = ps.map (fun bp => (bp.1, some bp.2)))
    (hc : ∀ it ∈ items, env.compiler it.tex_path = .success)
    (hpw : ps.Pairwise (fun x y => x.2 ≠ y.2 ∧ y.1 ≠ x.2))
    (hidx : ∀ bp ∈ ps, bp.2 ≠ "index")
    (hassets : env.assetsExists = false) :
    (mainRun env).err = none ∧
    List.Perm (mainRun env).output
      ((ps.map (fun bp => bp.2 ++ ".pdf") ++ ps.map (fun bp => bp.2 ++ ".html")) ++ ["index.html"]) ∧
    (mainRun env).output.length = 2 * items.length + 1 := by
  obtain ⟨hnone, hout⟩ := buildLoop_clean env.compiler items ps (initialBuildState env lg) hshape hc hpw
  rcases hb : buildLoop env.compiler (initialBuildState env lg) items with ⟨st, e⟩
  rw [hb] at hnone hout
  have he : e = none := hnone
  subst he
  have hout2 : st.out = (initialBuildState env lg).out.filter (fun n => !(clobbers ps n)) ++ pairNames ps := hout
  have hinit : (initialBuildState env lg).out = [] := by simp [initialBuildState, setupOutput]
  rw [hinit] at hout2
  simp only [List.filter_nil, List.nil_append] at hout2
  have ho : (mainRun env).output = writeFile "index.html" (pairNames ps) := by
    simp [mainRun, hload, hb, hassets, hout2]
  have hwf : writeFile "index.html" (pairNames ps) = pairNames ps ++ ["index.html"] := by
    have hnotin := index_not_in_pairNames ps hidx
    simp only [writeFile]
    congr 1
    apply List.filter_eq_self.mpr
    intro a ha
    exact decide_eq_true (fun hcontra => hnotin (hcontra ▸ ha))
  have hlen_ps : items.length = ps.length := by
    have := congrArg List.length hshape
    simpa using this
  refine ⟨by simp [mainRun, hload, hb], ?_, ?_⟩
  · rw [ho, hwf]
    exact (pairNames_perm ps).append_right ["index.html"]
  · rw [ho, hwf]
    simp [pairNames_length, hlen_ps]

/-- Claim C4 (counterexample): a manifest with two valid
submissions (both complete, neither skipped, every compile succeeding) whose
permalink slugs coincide produces one PDF file in the output directory, not
two — the second submission's artifacts overwrite the first's. -/
theorem clean_run_counts_cex :
    (mainRun duplicatePermalinkEnv).err = none ∧
    (mainRun duplicatePermalinkEnv).content.length = 2 ∧
    notSkipped duplicatePermalinkEnv.subdirs "1" = true ∧
    notSkipped duplicatePermalinkEnv.subdirs "2" = true ∧
    (mainRun duplicatePermalinkEnv).output = ["p.pdf", "p.html", "index.html"] ∧
    (mainRun duplicatePermalinkEnv).output.countP (fun n => strEndsWith n ".pdf") = 1 ∧
    ¬ ((mainRun duplicatePermalinkEnv).output.countP (fun n => strEndsWith n ".pdf") = 2) := by
  refine ⟨rfl, rfl, rfl, rfl, rfl, rfl, by decide⟩

/-- Witness for claim C4: two submissions with distinct permalinks "p1", "p2"; the output
is a permutation of their two PDF names, two HTML names and the index page,
five files in all. -/
theorem clean_run_output_files_witness :
    (mainRun
      { configIds := ["1", "2"],
        subdirs := fun d => if d = "submissions/1" then some ["a.yml", "a.tex"]
          else if d = "submissions/2" then some ["b.yml", "b.tex"] else none,
        yamlOf := fun p => if p = "submissions/1/a.yml" then [("title", "T1"), ("permalink", "p1")]
          else [("title", "T2"), ("permalink", "p2")],
        compiler := fun _ => .success,
        assetsExists := false, outputExists := false, initialOutput := [] }).err = none ∧
    List.Perm
      (mainRun
        { configIds := ["1", "2"],
          subdirs := fun d => if d = "submissions/1" then some ["a.yml", "a.tex"]
            else if d = "submissions/2" then some ["b.yml", "b.tex"] else none,
          yamlOf := fun p => if p = "submissions/1/a.yml" then [("title", "T1"), ("permalink", "p1")]
            else [("title", "T2"), ("permalink", "p2")],
          compiler := fun _ => .success,
          assetsExists := false, outputExists := false, initialOutput := [] }).output
      ((([("a", "p1"), ("b", "p2")] : List (String × String)).map (fun bp => bp.2 ++ ".pdf") ++
          ([("a", "p1"), ("b", "p2")] : List (String × String)).map (fun bp => bp.2 ++ ".html")) ++
        ["index.html"]) ∧
    (mainRun
      { configIds := ["1", "2"],
        subdirs := fun d => if d = "submissions/1" then some ["a.yml", "a.tex"]
          else if d = "submissions/2" then some ["b.yml", "b.tex"] else none,
        yamlOf := fun p => if p = "submissions/1/a.yml" then [("title", "T1"), ("permalink", "p1")]
          else [("title", "T2"), ("permalink", "p2")],
        compiler := fun _ => .success,
        assetsExists := false, outputExists := false, initialOutput := [] }).output.length =
      2 * ([{ metadata := [("pdf_link", "p1" ++ ".pdf"), ("id", "1"), ("title", "T1"), ("permalink", "p1")],
              tex_path := "submissions/1/a.tex" },
            { metadata := [("pdf_link", "p2" ++ ".pdf"), ("id", "2"), ("title", "T2"), ("permalink", "p2")],
              tex_path := "submissions/2/b.tex" }] : List Item).length + 1 :=
  clean_run_output_files
    { configIds := ["1", "2"],
      subdirs := fun d => if d = "submissions/1" then some ["a.yml", "a.tex"]
        else if d = "submissions/2" then some ["b.yml", "b.tex"] else none,
      yamlOf := fun p => if p = "submissions/1/a.yml" then [("title", "T1"), ("permalink", "p1")]
        else [("title", "T2"), ("permalink", "p2")],
      compiler := fun _ => .success,
      assetsExists := false, outputExists := false, initialOutput := [] }
    [.loaded "T1", .loaded "T2"]
    [{ metadata := [("pdf_link", "p1" ++ ".pdf"), ("id", "1"), ("title", "T1"), ("permalink", "p1")],
       tex_path := "submissions/1/a.tex" },
     { metadata := [("pdf_link", "p2" ++ ".pdf"), ("id", "2"), ("title", "T2"), ("permalink", "p2")],
       tex_path := "submissions/2/b.tex" }]
    [("a", "p1"), ("b", "p2")]
    (by rfl) (by rfl) (by decide) (by decide) (by decide) rfl
